import Mathlib

/-!
Shallow embedding of the race-data acquisition pipeline of `keiba-3`
(backend/app): the domain-value parser (`app/parser/data_parser.py`),
the record validator (`app/parser/race_data_converter.py`), the retrying
page fetcher (`app/scraper/base.py`) and the ingestion orchestrator
(`app/services/scraping_service.py`), together with theorems settling
the specification claims about them.

Conventions of the embedding:
* Python `str` is modelled as `String` / `List Char`; `re.match` (prefix
  matching, greedy `\d+`) is modelled by hand-rolled deterministic
  scanners over `List Char`.
* Python truthiness of a string is `s ≠ ""`; of an optional int it is
  `≠ None` and `≠ 0`.
* A Python function that can raise is modelled with `Except`; one that
  cannot raise returns plain values / `Option`.
* `decimal.Decimal` string conversion is modelled by `pyDecimalOfChars`
  (sign, digit/point coefficient, optional exponent, infinity and NaN
  word forms; underscore separators are not modelled, no claim depends
  on them).  A failed conversion raises `decimal.InvalidOperation`.
-/

/-! ## String helpers shared by the parser embedding -/

/-- Python `str.strip()`: drop whitespace from both ends. -/
def pyStrip (l : List Char) : List Char :=
  ((l.dropWhile Char.isWhitespace).reverse.dropWhile Char.isWhitespace).reverse

/-- Greedy scan of a maximal leading digit run, the behaviour of `\d+`
at the current position of a `re.match`. Returns (digits, rest). -/
def spanDigits : List Char → List Char × List Char
  | [] => ([], [])
  | c :: cs =>
    if c.isDigit then
      ((spanDigits cs).1.cons c, (spanDigits cs).2)
    else ([], c :: cs)

/-- Python `int()` on a non-empty digit string. -/
def natOfDigits (l : List Char) : Nat :=
  l.foldl (fun a c => a * 10 + (c.toNat - 48)) 0

namespace DataParser

/-! ## `DataParser.parse_time` (data_parser.py:23-59) -/

/-- `re.match(r'(\d+):(\d+)\.(\d+)', s)`: prefix match, groups as nats. -/
def matchTimeColonDot (l : List Char) : Option (Nat × Nat × Nat) :=
  match spanDigits l with
  | (a, r1) =>
    if a.isEmpty then none else
    match r1 with
    | ':' :: r2 =>
      match spanDigits r2 with
      | (b, r3) =>
        if b.isEmpty then none else
        match r3 with
        | '.' :: r4 =>
          match spanDigits r4 with
          | (c, _) =>
            if c.isEmpty then none else
            some (natOfDigits a, natOfDigits b, natOfDigits c)
        | _ => none
    | _ => none

/-- `re.match(r'(\d+)\.(\d+)\.(\d+)', s)`: prefix match, groups as nats. -/
def matchTimeDotDot (l : List Char) : Option (Nat × Nat × Nat) :=
  match spanDigits l with
  | (a, r1) =>
    if a.isEmpty then none else
    match r1 with
    | '.' :: r2 =>
      match spanDigits r2 with
      | (b, r3) =>
        if b.isEmpty then none else
        match r3 with
        | '.' :: r4 =>
          match spanDigits r4 with
          | (c, _) =>
            if c.isEmpty then none else
            some (natOfDigits a, natOfDigits b, natOfDigits c)
        | _ => none
    | _ => none

/-- `re.match(r'(\d+):(\d+)', s)`: prefix match, groups as nats. -/
def matchTimeColon (l : List Char) : Option (Nat × Nat) :=
  match spanDigits l with
  | (a, r1) =>
    if a.isEmpty then none else
    match r1 with
    | ':' :: r2 =>
      match spanDigits r2 with
      | (b, _) =>
        if b.isEmpty then none else
        some (natOfDigits a, natOfDigits b)
    | _ => none

/-- `DataParser.parse_time`: three patterns tried in order on the
stripped input; a 3-group match yields `minutes*60 + seconds +
fraction/10`, a 2-group match `minutes*60 + seconds`; `None` otherwise
(and on the falsy/`"-"` early return). -/
def parse_time (time_str : String) : Option ℚ :=
  if time_str = "" ∨ time_str = "-" then none
  else
    let l := pyStrip time_str.data
    match matchTimeColonDot l with
    | some (m, s, f) => some ((m : ℚ) * 60 + s + (f : ℚ) / 10)
    | none =>
      match matchTimeDotDot l with
      | some (m, s, f) => some ((m : ℚ) * 60 + s + (f : ℚ) / 10)
      | none =>
        match matchTimeColon l with
        | some (m, s) => some ((m : ℚ) * 60 + s)
        | none => none

/-! ## `DataParser.parse_odds` (data_parser.py:61-81) -/

/-- The value of a Python `Decimal`: finite rational, signed infinity,
or (quiet/signalling) NaN. -/
inductive PyDecimal where
  | finite (q : ℚ)
  | infinite (neg : Bool)
  | nan
deriving DecidableEq, Repr

/-- Exponent tail of a decimal literal: empty, or `[eE][+-]?digits+`,
scaling the coefficient by a power of ten. -/
def parseDecExponent (q : ℚ) (l : List Char) : Option ℚ :=
  match l with
  | [] => some q
  | e :: r1 =>
    if e = 'e' ∨ e = 'E' then
      let signAndRest : ℤ × List Char :=
        match r1 with
        | '+' :: t => (1, t)
        | '-' :: t => (-1, t)
        | t => (1, t)
      match spanDigits signAndRest.2 with
      | (d, r2) =>
        if d.isEmpty ∨ ¬ r2.isEmpty then none
        else
          let ex : ℤ := signAndRest.1 * (natOfDigits d : ℤ)
          some (q * (10 : ℚ) ^ ex)
    else none

/-- Numeric (finite) decimal literal after the sign: `digits*` with an
optional `.digits*` (at least one digit overall), then an optional
exponent; nothing may follow. -/
def parseDecNumeric (l : List Char) : Option ℚ :=
  match spanDigits l with
  | (ip, r1) =>
    match r1 with
    | '.' :: r2 =>
      match spanDigits r2 with
      | (fp, r3) =>
        if ip.isEmpty ∧ fp.isEmpty then none
        else
          parseDecExponent
            ((natOfDigits ip : ℚ) + (natOfDigits fp : ℚ) / (10 : ℚ) ^ fp.length) r3
    | _ =>
      if ip.isEmpty then none
      else parseDecExponent (natOfDigits ip : ℚ) r1

/-- `inf` / `infinity` word form (already lowercased, after the sign). -/
def isInfForm (low : List Char) : Bool :=
  low = ['i', 'n', 'f'] ∨
    low = ['i', 'n', 'f', 'i', 'n', 'i', 't', 'y']

/-- `nan` / `snan` word form with optional digit payload (lowercased). -/
def isNanForm (low : List Char) : Bool :=
  match low with
  | 'n' :: 'a' :: 'n' :: t => t.all Char.isDigit
  | 's' :: 'n' :: 'a' :: 'n' :: t => t.all Char.isDigit
  | _ => false

/-- `decimal.Decimal(str)` conversion on an already-stripped string:
`some` value on the decimal literal grammar, `none` when the
constructor would raise `decimal.InvalidOperation`. -/
def pyDecimalOfChars (l : List Char) : Option PyDecimal :=
  let signAndRest : Bool × List Char :=
    match l with
    | '+' :: t => (false, t)
    | '-' :: t => (true, t)
    | t => (false, t)
  let low := signAndRest.2.map Char.toLower
  if isInfForm low then some (.infinite signAndRest.1)
  else if isNanForm low then some .nan
  else
    match parseDecNumeric signAndRest.2 with
    | some q => some (.finite (if signAndRest.1 then -q else q))
    | none => none

/-- `DataParser.parse_odds`: falsy/`"-"` input returns `None`;
otherwise commas are removed, the string stripped, and
`Decimal(cleaned)` attempted.  The surrounding
`except (ValueError, TypeError)` does NOT catch
`decimal.InvalidOperation`, so a failed conversion propagates as an
exception (`Except.error`). -/
def parse_odds (odds_str : String) : Except Unit (Option PyDecimal) :=
  if odds_str = "" ∨ odds_str = "-" then .ok none
  else
    let cleaned := pyStrip (odds_str.data.filter (fun c => c ≠ ','))
    match pyDecimalOfChars cleaned with
    | some d => .ok (some d)
    | none => .error ()

/-! ## `DataParser.parse_weight` (data_parser.py:83-111) -/

/-- Inner part of `re.match(r'(\d+)\(([+-]?\d+)\)', s)` after the sign:
`digits+` then `)`. -/
def matchWeightInner (w : Nat) (sgn : ℤ) (l : List Char) : Option (ℤ × ℤ) :=
  match spanDigits l with
  | (b, r) =>
    if b.isEmpty then none else
    match r with
    | ')' :: _ => some ((w : ℤ), sgn * (natOfDigits b : ℤ))
    | _ => none

/-- `re.match(r'(\d+)\(([+-]?\d+)\)', s)`: prefix match on the stripped
input. -/
def matchWeightParen (l : List Char) : Option (ℤ × ℤ) :=
  match spanDigits l with
  | (a, r1) =>
    if a.isEmpty then none else
    match r1 with
    | '(' :: '+' :: r2 => matchWeightInner (natOfDigits a) 1 r2
    | '(' :: '-' :: r2 => matchWeightInner (natOfDigits a) (-1) r2
    | '(' :: r2 => matchWeightInner (natOfDigits a) 1 r2
    | _ => none

/-- `DataParser.parse_weight`: falsy/`"-"` → `(None, None)`; else the
parenthesised pattern, else `re.match(r'(\d+)', s)` → `(weight, 0)`;
else `(None, None)`. -/
def parse_weight (weight_str : String) : Option ℤ × Option ℤ :=
  if weight_str = "" ∨ weight_str = "-" then (none, none)
  else
    let l := pyStrip weight_str.data
    match matchWeightParen l with
    | some (w, d) => (some w, some d)
    | none =>
      match spanDigits l with
      | (a, _) =>
        if a.isEmpty then (none, none)
        else (some ((natOfDigits a : ℤ)), some 0)

/-! ## `DataParser.parse_race_grade` (data_parser.py:208-242) -/

/-- The `valid_grades` list of the source. -/
def valid_grades : List String :=
  ["G1", "G2", "G3", "GIII", "GII", "GI",
   "JPN1", "JPN2", "JPN3", "L", "LISTED", "OP"]

/-- The `normalize_map` dict of the source. -/
def normalize_map : List (String × String) :=
  [("GIII", "G3"), ("GII", "G2"), ("GI", "G1"),
   ("JPNI", "JPN1"), ("JPNII", "JPN2"), ("JPNIII", "JPN3"),
   ("LISTED", "L")]

/-- `str.strip().upper()` on the raw grade string. -/
def gradeNormalize (s : String) : String :=
  String.mk ((pyStrip s.data).map Char.toUpper)

/-- `DataParser.parse_race_grade`: falsy input → `None`; the stripped,
upper-cased token is looked up in `normalize_map` (with itself as the
default) only when it belongs to `valid_grades`; otherwise it passes
through unchanged. -/
def parse_race_grade (grade_str : String) : Option String :=
  if grade_str = "" then none
  else
    let g := gradeNormalize grade_str
    if valid_grades.contains g then
      match normalize_map.lookup g with
      | some v => some v
      | none => some g
    else some g

end DataParser

/-! ## Data model (app/models/race.py)

Only the attributes the verified code paths read are carried; optional
columns are `Option`-typed since the in-memory objects may hold `None`.
All fields default so that concrete witnesses stay readable. -/

/-- `Race` (models/race.py): race-level record. `id` is `Option` so the
validator's Python truthiness test `not race.id` is expressible. -/
structure Race where
  id : Option String := none
  date : Option String := none
  place : String := ""
  race_number : Option ℤ := none
  name : Option String := none
  grade : Option String := none
  distance : Option ℤ := none
  track_type : String := ""
  weather : Option String := none
  track_condition : Option String := none
deriving DecidableEq, Repr

/-- `RaceResult` (models/race.py): per-entrant record (the fields the
validator and orchestrator read, plus identifying ones). -/
structure RaceResult where
  race_id : String := ""
  post_position : Option ℤ := none
  bracket_number : Option ℤ := none
  horse_name : String := ""
  finish_position : Option ℤ := none
  time : Option String := none
  margin : Option String := none
  popularity : Option ℤ := none
deriving DecidableEq, Repr

/-- Python truthiness of an optional string (`not race.id`). -/
def pyTruthyStr : Option String → Bool
  | none => false
  | some s => s ≠ ""

/-- Python truthiness of an optional int (`if r.post_position`):
`None` and `0` are falsy. -/
def pyTruthyInt : Option ℤ → Bool
  | none => false
  | some n => n ≠ 0

namespace RaceDataConverter

/-! ## `RaceDataConverter.validate_race_data`
(race_data_converter.py:174-208) -/

/-- The list comprehension
`[r.post_position for r in results if r.post_position]`:
the post positions that are set and non-zero. -/
def truthyPostPositions (results : List RaceResult) : List ℤ :=
  results.filterMap fun r =>
    if pyTruthyInt r.post_position then r.post_position else none

/-- `RaceDataConverter.validate_race_data`: `False` when the race is
`None` or its id falsy, when `results` is empty, or when the truthy
post positions contain a duplicate (`len(lst) != len(set(lst))`).
The winner-count check (`len(winners) != 1`) only logs a warning and
never changes the result. -/
def validate_race_data (race : Option Race) (results : List RaceResult) :
    Bool :=
  match race with
  | none => false
  | some r =>
    if ¬ pyTruthyStr r.id then false
    else if results.isEmpty then false
    else
      let post_positions := truthyPostPositions results
      if post_positions.dedup.length ≠ post_positions.length then false
      else
        -- winners check: warning only, passes either way
        if (results.filter fun x => x.finish_position = some 1).length ≠ 1
        then true
        else true

end RaceDataConverter

/-! ## `BaseScraper.fetch_page` (scraper/base.py:83-133)

The tenacity decorator is
`retry(stop=stop_after_attempt(3), wait=wait_exponential(multiplier=1,
min=4, max=10), retry=retry_if_exception_type((httpx.HTTPError,
httpx.TimeoutException)), reraise=True)`.  The decorated body catches
`httpx.HTTPStatusError`, `httpx.TimeoutException` and every other
`Exception` and re-raises them wrapped as `ScrapingError`. -/

/-- Exception classes distinguishable by the retry predicate.
`httpStatusError`, `timeoutException` and `otherHttpError` are
subclasses of `httpx.HTTPError`; `ScrapingError` is not. -/
inductive PyExc where
  | httpStatusError
  | timeoutException
  | otherHttpError
  | scrapingError
  | otherError
deriving DecidableEq, Repr

/-- `retry_if_exception_type((httpx.HTTPError, httpx.TimeoutException))`:
true exactly on `httpx.HTTPError` subclasses (which include
`httpx.TimeoutException`). -/
def isRetryableExc : PyExc → Bool
  | .httpStatusError => true
  | .timeoutException => true
  | .otherHttpError => true
  | .scrapingError => false
  | .otherError => false

/-- `wait_exponential(multiplier=1, min=4, max=10)` before retry number
`n` (n ≥ 1): `min 10 (max 4 (1 * 2^n))` seconds. -/
def backoffWait (n : Nat) : Nat :=
  min 10 (max 4 (1 * 2 ^ n))

/-- A fetched, parsed document. -/
inductive Soup where
  | page
deriving DecidableEq, Repr

/-- Outcome of one underlying attempt: the page arrived (flag: does
`_is_error_page` fire on it), or `client.get`/`raise_for_status`
raised. -/
inductive RawFetch where
  | ok (isErrorPage : Bool)
  | httpStatusError
  | timeout
  | otherExc
deriving DecidableEq, Repr

/-- The body of `fetch_page` for one attempt (base.py:102-133): every
failure path — HTTP status error, timeout, detected error page, any
other exception — is caught and re-raised as `ScrapingError`. -/
def fetchPageBody (raw : RawFetch) : Except PyExc Soup :=
  match raw with
  | .ok false => .ok .page
  | .ok true =>
      -- `raise ScrapingError("Error page returned")` at base.py:118 is
      -- itself caught by `except Exception` and wrapped again
      .error .scrapingError
  | .httpStatusError => .error .scrapingError
  | .timeout => .error .scrapingError
  | .otherExc => .error .scrapingError

/-- The tenacity loop with `reraise=True`: run attempts starting at
number `n`; on an exception satisfying the retry predicate, retry while
attempts remain (`stop_after_attempt` bounds the total); otherwise the
exception propagates unchanged.  Returns the result and the number of
attempts actually made. -/
def tenacityLoop (body : Nat → Except PyExc Soup) :
    Nat → Nat → Except PyExc Soup × Nat
  | _, 0 => (.error .otherError, 0)     -- unreachable: called with fuel ≥ 1
  | n, fuel + 1 =>
    match body n with
    | .ok a => (.ok a, n)
    | .error e =>
      if isRetryableExc e ∧ fuel ≠ 0 then
        tenacityLoop body (n + 1) fuel
      else (.error e, n)

/-- `fetch_page` under a deterministic environment giving the raw
outcome of each attempt: the tenacity-decorated body with
`stop_after_attempt(3)`.  Returns the final result and the number of
attempts made. -/
def fetch_page (env : Nat → RawFetch) : Except PyExc Soup × Nat :=
  tenacityLoop (fun n => fetchPageBody (env n)) 1 3

namespace ScrapingService

/-! ## `ScrapingService` (services/scraping_service.py)

The per-race pipeline is deterministic in the environment:
`env.scrape id` is the combined result of
`race_scraper.scrape(id)` + `convert_to_race_model` +
`convert_to_race_results` (an `Except.error` when any of them raises),
and `env.persistOk id` says whether `_save_race_data` commits or
raises (on raise it rolls back, leaving the store unchanged). -/

/-- The persisted store: the committed `(Race, results)` rows, in
insertion order. -/
abbrev Store : Type := List (Race × List RaceResult)

/-- Deterministic environment for one ingestion run. -/
structure ScrapeEnv where
  scrape : String → Except Unit (Option Race × List RaceResult)
  persistOk : String → Bool

/-- The `stats` dict built by `scrape_races_by_date_range`
(scraping_service.py:75-81), minus the wall-clock fields. -/
structure RunStats where
  total : Nat := 0
  scraped : Nat := 0
  skipped : Nat := 0
  failed : Nat := 0
deriving DecidableEq, Repr

/-- Fieldwise sum of run statistics. -/
def RunStats.add (a b : RunStats) : RunStats :=
  ⟨a.total + b.total, a.scraped + b.scraped,
   a.skipped + b.skipped, a.failed + b.failed⟩

instance : Add RunStats := ⟨RunStats.add⟩

/-- The all-zero statistics record. -/
def RunStats.zero : RunStats := ⟨0, 0, 0, 0⟩

/-- `_exists_race` (scraping_service.py:152-164): does the store hold a
race with this id? -/
def exists_race (store : Store) (race_id : String) : Bool :=
  store.any fun rr => rr.1.id = some race_id

/-- `scrape_and_save_race` (scraping_service.py:120-150): scrape and
convert (re-raising any exception), return `False` without persisting
when `validate_race_data` rejects, otherwise persist (a commit failure
rolls back and re-raises) and return `True`.  The returned store is
the store after the call. -/
def scrape_and_save_race (env : ScrapeEnv) (store : Store)
    (race_id : String) : Except Unit (Bool × Store) :=
  match env.scrape race_id with
  | .error e => .error e
  | .ok (race, results) =>
    if RaceDataConverter.validate_race_data race results then
      match race with
      | some r =>
        if env.persistOk race_id then .ok (true, store ++ [(r, results)])
        else .error ()
      | none => .ok (true, store)   -- unreachable: validation rejects None
    else .ok (false, store)

/-- One iteration of the loop at scraping_service.py:84-104 for one
race id.  Note the faithful slip: the loop ignores the `Bool` returned
by `scrape_and_save_race` and increments `scraped` whenever no
exception was raised (lines 93-94), so a validation failure is counted
in `scraped`, not `failed`. -/
def processRace (env : ScrapeEnv) (skip_existing : Bool) :
    Store × RunStats → String → Store × RunStats
  | (store, stats), race_id =>
    if skip_existing && exists_race store race_id then
      (store, { stats with skipped := stats.skipped + 1 })
    else
      match scrape_and_save_race env store race_id with
      | .ok (_success, store2) =>
          (store2, { stats with scraped := stats.scraped + 1 })
      | .error _ =>
          (store, { stats with failed := stats.failed + 1 })

/-- `scrape_races_by_date_range` (scraping_service.py:41-118) after id
enumeration: fold the per-id loop over the enumerated ids, starting
from the given store with `total` preset to the id count. -/
def scrape_races_by_date_range (env : ScrapeEnv) (race_ids : List String)
    (skip_existing : Bool) (store : Store) : Store × RunStats :=
  race_ids.foldl (processRace env skip_existing)
    (store, { RunStats.zero with total := race_ids.length })

end ScrapingService

/-- Decidable equality for `Except` results, so runs of the embedded
code can be checked on concrete inputs. -/
instance {ε α : Type} [DecidableEq ε] [DecidableEq α] :
    DecidableEq (Except ε α) := fun a b =>
  match a, b with
  | .ok x, .ok y =>
      if h : x = y then .isTrue (by simp [h]) else .isFalse (by simp [h])
  | .error x, .error y =>
      if h : x = y then .isTrue (by simp [h]) else .isFalse (by simp [h])
  | .ok _, .error _ => .isFalse (by simp)
  | .error _, .ok _ => .isFalse (by simp)

/-! ## Concrete fixtures used by several run-level theorems

`envXY` is a two-race environment: race `"X"` scrapes and converts but
its result list is empty, so `validate_race_data` rejects it; race
`"Y"` is fully valid and persists. -/

namespace Fixtures

/-- The valid race of the fixture environment. -/
def raceY : Race := { id := some "Y" }

/-- The single entrant of race `"Y"`. -/
def resY : RaceResult :=
  { race_id := "Y", post_position := some 1, finish_position := some 1 }

/-- Environment: id `"X"` yields data failing validation (empty result
set), id `"Y"` yields a valid race, anything else raises. -/
def envXY : ScrapingService.ScrapeEnv where
  scrape id :=
    if id = "X" then .ok (some { id := some "X" }, [])
    else if id = "Y" then .ok (some raceY, [resY])
    else .error ()
  persistOk _ := true

/-- The entrant of race `"P"` in the persist-failure environment. -/
def resP : RaceResult :=
  { race_id := "P", post_position := some 1, finish_position := some 1 }

/-- Environment like `envXY`, plus id `"P"` whose race scrapes,
converts and validates, but whose persist (`_save_race_data`) raises:
the transaction rolls back and `scrape_and_save_race` re-raises. -/
def envPersist : ScrapingService.ScrapeEnv where
  scrape id :=
    if id = "P" then .ok (some { id := some "P" }, [resP])
    else envXY.scrape id
  persistOk id := id ≠ "P"

end Fixtures

/-- Head-of-list predicate: the scan of a regex digit group stops here. -/
def leadingNonDigit : List Char → Prop
  | [] => True
  | c :: _ => c.isDigit = false

/-- Formalisation of the claim wording for C8: a FULL-string match of
the shape `NNN(+D)` / `NNN(-D)` (explicit sign, nothing after the
closing parenthesis). Written from the spec words, to compare with
the prefix-matching code. -/
def specWeightParenShape (l : List Char) : Bool :=
  match spanDigits l with
  | (a, r) =>
    ¬ a.isEmpty &&
      (match r with
       | '(' :: s :: rest =>
         (s = '+' || s = '-') &&
           (match spanDigits rest with
            | (b, r2) => ¬ b.isEmpty && r2 = [')'])
       | _ => false)

/-- Formalisation of the claim wording for C8: a bare digit-run input. -/
def specBareNatShape (l : List Char) : Bool :=
  ¬ l.isEmpty && l.all Char.isDigit

/-- Two entrants sharing the set post position 0 (both positions set,
distinct finish positions): input for the C6 counterexample. -/
def resSharedZero : List RaceResult :=
  [{ post_position := some 0, finish_position := some 1 },
   { post_position := some 0, finish_position := some 2 }]

/-- A dead-heat result list: two entrants, distinct post positions,
both with finish position 1. -/
def resDeadHeat : List RaceResult :=
  [{ post_position := some 1, finish_position := some 1 },
   { post_position := some 2, finish_position := some 1 }]

/-! # Theorems settling the claims -/

/-! ## Helper lemmas -/

lemma dropWhile_all_false {p : Char → Bool} {l : List Char}
    (h : ∀ c ∈ l, p c = false) : l.dropWhile p = l := by
  cases l with
  | nil => rfl
  | cons c t => simp [List.dropWhile, h c (by simp)]

lemma isWhitespace_eq_false_of_isDigit {c : Char} (h : c.isDigit = true) :
    c.isWhitespace = false := by
  cases hc : c.isWhitespace
  · rfl
  · exfalso
    have hmem : c = ' ' ∨ c = '\t' ∨ c = '\r' ∨ c = '\n' := by
      revert hc
      simp [Char.isWhitespace]
      tauto
    rcases hmem with rfl | rfl | rfl | rfl <;> exact absurd h (by decide)

lemma pyStrip_eq_self {l : List Char} (h : ∀ c ∈ l, c.isWhitespace = false) :
    pyStrip l = l := by
  unfold pyStrip
  rw [dropWhile_all_false h,
    dropWhile_all_false (fun c hc => h c (List.mem_reverse.mp hc)),
    List.reverse_reverse]

/-- Head-of-list predicate: the scan of `\d+` stops here. -/

lemma spanDigits_append {a : List Char} (ha : ∀ x ∈ a, x.isDigit = true)
    {r : List Char} (hr : leadingNonDigit r) : spanDigits (a ++ r) = (a, r) := by
  induction a with
  | nil =>
    cases r with
    | nil => rfl
    | cons c t => simp [spanDigits, leadingNonDigit] at hr ⊢; simp [hr]
  | cons c a' ih =>
    have hc : c.isDigit = true := ha c (by simp)
    have ih' := ih (fun x hx => ha x (by simp [hx]))
    simp [spanDigits, hc, ih']

lemma truthyPostPositions_eq_filter (results : List RaceResult) :
    RaceDataConverter.truthyPostPositions results =
      (results.filterMap RaceResult.post_position).filter (fun p => p ≠ 0) := by
  induction results with
  | nil => rfl
  | cons r t ih =>
    cases hp : r.post_position with
    | none => simp [RaceDataConverter.truthyPostPositions, List.filterMap, hp, pyTruthyInt] at ih ⊢; exact ih
    | some p =>
      by_cases h0 : p = 0
      · subst h0
        simp [RaceDataConverter.truthyPostPositions, List.filterMap_cons, hp, pyTruthyInt] at ih ⊢
        exact ih
      · simp [RaceDataConverter.truthyPostPositions, List.filterMap_cons, hp, pyTruthyInt, h0] at ih ⊢
        exact ih

lemma mem_truthy_ne_zero {results : List RaceResult} {p : ℤ}
    (h : p ∈ RaceDataConverter.truthyPostPositions results) : p ≠ 0 := by
  rw [truthyPostPositions_eq_filter] at h
  have := (List.mem_filter.mp h).2
  simpa using this

lemma count_truthy_eq_countP (results : List RaceResult) {p : ℤ} (hp : p ≠ 0) :
    (RaceDataConverter.truthyPostPositions results).count p =
      results.countP (fun x => x.post_position = some p) := by
  induction results with
  | nil => rfl
  | cons r t ih =>
    simp only [RaceDataConverter.truthyPostPositions, List.filterMap_cons] at ih ⊢
    cases hpp : r.post_position with
    | none =>
      simp [show pyTruthyInt none = false from rfl, List.countP_cons, hpp, ih]
    | some q =>
      by_cases hq : q = 0
      · subst hq
        simp [show pyTruthyInt (some (0 : ℤ)) = false from rfl,
          List.countP_cons, hpp, ih, Ne.symm hp]
      · have ht : pyTruthyInt (some q) = true := by simp [pyTruthyInt, hq]
        by_cases hqp : q = p
        · subst hqp
          simp [ht, List.countP_cons, List.count_cons, hpp, ih]
        · simp [ht, hqp, List.countP_cons, List.count_cons, hpp, ih]

lemma dedup_length_eq_iff (l : List ℤ) : l.dedup.length = l.length ↔ l.Nodup := by
  constructor
  · intro h
    have := (List.dedup_sublist l).eq_of_length h
    rw [← this]
    exact List.nodup_dedup l
  · intro h
    rw [List.dedup_eq_self.mpr h]

lemma dup_truthy_iff (results : List RaceResult) :
    ((RaceDataConverter.truthyPostPositions results).dedup.length ≠
        (RaceDataConverter.truthyPostPositions results).length) ↔
      ∃ p : ℤ, p ≠ 0 ∧
        2 ≤ results.countP (fun x => x.post_position = some p) := by
  rw [Ne, dedup_length_eq_iff, ← List.exists_duplicate_iff_not_nodup]
  constructor
  · rintro ⟨p, hdup⟩
    have hcount := List.duplicate_iff_two_le_count.mp hdup
    have hp := mem_truthy_ne_zero hdup.mem
    refine ⟨p, hp, ?_⟩
    rw [← count_truthy_eq_countP results hp]
    exact hcount
  · rintro ⟨p, hp, hc⟩
    refine ⟨p, List.duplicate_iff_two_le_count.mpr ?_⟩
    rw [count_truthy_eq_countP results hp]
    exact hc

lemma validate_eq_true_iff (race : Option Race) (results : List RaceResult) :
    RaceDataConverter.validate_race_data race results = true ↔
      ∃ r, race = some r ∧ pyTruthyStr r.id = true ∧ results ≠ [] ∧
        ¬ ∃ p : ℤ, p ≠ 0 ∧
          2 ≤ results.countP (fun x => x.post_position = some p) := by
  cases race with
  | none => simp [RaceDataConverter.validate_race_data]
  | some r =>
    rw [← dup_truthy_iff results]
    by_cases hid : pyTruthyStr r.id = true
    · by_cases hne : results = []
      · subst hne; simp [RaceDataConverter.validate_race_data, hid]
      · by_cases hd : (RaceDataConverter.truthyPostPositions results).dedup.length ≠
            (RaceDataConverter.truthyPostPositions results).length
        · simp [RaceDataConverter.validate_race_data, hid, hne, hd]
        · simp [RaceDataConverter.validate_race_data, hid, hne, hd]
    · simp [RaceDataConverter.validate_race_data, hid]

lemma leadingNonDigit_cons (c : Char) (r : List Char)
    (h : c.isDigit = false) : leadingNonDigit (c :: r) := h

lemma spanDigits_all_digits {c : List Char} (hc : ∀ x ∈ c, x.isDigit = true) :
    spanDigits c = (c, []) := by
  have h := @spanDigits_append c hc [] trivial
  simpa using h

lemma matchTimeColonDot_eval {a b c : List Char}
    (ha : ∀ x ∈ a, x.isDigit = true) (hb : ∀ x ∈ b, x.isDigit = true)
    (hc : ∀ x ∈ c, x.isDigit = true)
    (hna : a ≠ []) (hnb : b ≠ []) (hnc : c ≠ []) :
    DataParser.matchTimeColonDot (a ++ (':' :: (b ++ ('.' :: c)))) =
      some (natOfDigits a, natOfDigits b, natOfDigits c) := by
  have h1 : spanDigits (a ++ (':' :: (b ++ ('.' :: c)))) =
      (a, ':' :: (b ++ ('.' :: c))) :=
    spanDigits_append ha (leadingNonDigit_cons ':' _ (by decide))
  have h2 : spanDigits (b ++ ('.' :: c)) = (b, '.' :: c) :=
    spanDigits_append hb (leadingNonDigit_cons '.' _ (by decide))
  have h3 : spanDigits c = (c, []) := spanDigits_all_digits hc
  unfold DataParser.matchTimeColonDot
  rw [h1]
  simp [hna, hnb, hnc, h2, h3]

lemma matchTimeColonDot_none_of_dot {a : List Char}
    (ha : ∀ x ∈ a, x.isDigit = true) (r : List Char) :
    DataParser.matchTimeColonDot (a ++ ('.' :: r)) = none := by
  have h1 := spanDigits_append ha (leadingNonDigit_cons '.' r (by decide))
  unfold DataParser.matchTimeColonDot
  rw [h1]
  cases a with
  | nil => simp
  | cons x t => simp

lemma matchTimeColonDot_none_colon_only {a b : List Char}
    (ha : ∀ x ∈ a, x.isDigit = true) (hb : ∀ x ∈ b, x.isDigit = true) :
    DataParser.matchTimeColonDot (a ++ (':' :: b)) = none := by
  have h1 := spanDigits_append ha (leadingNonDigit_cons ':' b (by decide))
  have h2 := spanDigits_all_digits hb
  unfold DataParser.matchTimeColonDot
  rw [h1]
  cases a with
  | nil => simp
  | cons x t =>
    simp only [List.isEmpty_cons, Bool.false_eq_true, if_false, h2]
    cases b with
    | nil => simp
    | cons y u => simp [h2]

lemma matchTimeDotDot_eval {a b c : List Char}
    (ha : ∀ x ∈ a, x.isDigit = true) (hb : ∀ x ∈ b, x.isDigit = true)
    (hc : ∀ x ∈ c, x.isDigit = true)
    (hna : a ≠ []) (hnb : b ≠ []) (hnc : c ≠ []) :
    DataParser.matchTimeDotDot (a ++ ('.' :: (b ++ ('.' :: c)))) =
      some (natOfDigits a, natOfDigits b, natOfDigits c) := by
  have h1 : spanDigits (a ++ ('.' :: (b ++ ('.' :: c)))) =
      (a, '.' :: (b ++ ('.' :: c))) :=
    spanDigits_append ha (leadingNonDigit_cons '.' _ (by decide))
  have h2 : spanDigits (b ++ ('.' :: c)) = (b, '.' :: c) :=
    spanDigits_append hb (leadingNonDigit_cons '.' _ (by decide))
  have h3 : spanDigits c = (c, []) := spanDigits_all_digits hc
  unfold DataParser.matchTimeDotDot
  rw [h1]
  simp [hna, hnb, hnc, h2, h3]

lemma matchTimeDotDot_none_of_colon {a : List Char}
    (ha : ∀ x ∈ a, x.isDigit = true) (r : List Char) :
    DataParser.matchTimeDotDot (a ++ (':' :: r)) = none := by
  have h1 := spanDigits_append ha (leadingNonDigit_cons ':' r (by decide))
  unfold DataParser.matchTimeDotDot
  rw [h1]
  cases a with
  | nil => simp
  | cons x t => simp

lemma matchTimeColon_eval {a b : List Char}
    (ha : ∀ x ∈ a, x.isDigit = true) (hb : ∀ x ∈ b, x.isDigit = true)
    (hna : a ≠ []) (hnb : b ≠ []) :
    DataParser.matchTimeColon (a ++ (':' :: b)) =
      some (natOfDigits a, natOfDigits b) := by
  have h1 := spanDigits_append ha (leadingNonDigit_cons ':' b (by decide))
  have h2 := spanDigits_all_digits hb
  unfold DataParser.matchTimeColon
  rw [h1]
  simp [hna, hnb, h2]

lemma string_mk_time_ne {l : List Char} (hlen : 2 ≤ l.length) :
    ¬ (String.mk l = "" ∨ String.mk l = "-") := by
  rintro (hcon | hcon)
  · have hd : l = [] := congrArg String.data hcon
    rw [hd] at hlen
    simp at hlen
  · have hd : l = ['-'] := congrArg String.data hcon
    rw [hd] at hlen
    simp at hlen

lemma strip_time_chars {a b : List Char} (sep1 sep2 : Char)
    (hs1 : sep1.isWhitespace = false) (hs2 : sep2.isWhitespace = false)
    (ha : ∀ x ∈ a, x.isDigit = true) (hb : ∀ x ∈ b, x.isDigit = true)
    {c : List Char} (hc : ∀ x ∈ c, x.isDigit = true) :
    pyStrip (a ++ (sep1 :: (b ++ (sep2 :: c)))) =
      a ++ (sep1 :: (b ++ (sep2 :: c))) := by
  apply pyStrip_eq_self
  intro x hx
  simp at hx
  rcases hx with hx | rfl | hx | rfl | hx
  · exact isWhitespace_eq_false_of_isDigit (ha x hx)
  · exact hs1
  · exact isWhitespace_eq_false_of_isDigit (hb x hx)
  · exact hs2
  · exact isWhitespace_eq_false_of_isDigit (hc x hx)

lemma strip_time_chars2 {a b : List Char} (sep1 : Char)
    (hs1 : sep1.isWhitespace = false)
    (ha : ∀ x ∈ a, x.isDigit = true) (hb : ∀ x ∈ b, x.isDigit = true) :
    pyStrip (a ++ (sep1 :: b)) = a ++ (sep1 :: b) := by
  apply pyStrip_eq_self
  intro x hx
  simp at hx
  rcases hx with hx | rfl | hx
  · exact isWhitespace_eq_false_of_isDigit (ha x hx)
  · exact hs1
  · exact isWhitespace_eq_false_of_isDigit (hb x hx)

lemma runStats_add_def (x y : ScrapingService.RunStats) :
    x + y = ⟨x.total + y.total, x.scraped + y.scraped,
      x.skipped + y.skipped, x.failed + y.failed⟩ := rfl

lemma runStats_add_assoc (x y z : ScrapingService.RunStats) :
    x + y + z = x + (y + z) := by
  simp [runStats_add_def, Nat.add_assoc]

lemma runStats_add_zero (x : ScrapingService.RunStats) :
    x + ScrapingService.RunStats.zero = x := by
  cases x
  simp [runStats_add_def, ScrapingService.RunStats.zero]

lemma processRace_stats_shift (env : ScrapingService.ScrapeEnv) (skip : Bool)
    (st : ScrapingService.Store) (s : ScrapingService.RunStats) (id : String) :
    ScrapingService.processRace env skip (st, s) id =
      ((ScrapingService.processRace env skip
          (st, ScrapingService.RunStats.zero) id).1,
        s + (ScrapingService.processRace env skip
          (st, ScrapingService.RunStats.zero) id).2) := by
  simp only [ScrapingService.processRace]
  cases hse : skip && ScrapingService.exists_race st id
  · simp only [Bool.false_eq_true, if_false]
    cases hr : ScrapingService.scrape_and_save_race env st id with
    | ok p =>
      cases s
      simp [runStats_add_def, ScrapingService.RunStats.zero]
    | error e =>
      cases s
      simp [runStats_add_def, ScrapingService.RunStats.zero]
  · simp only [if_true]
    cases s
    simp [runStats_add_def, ScrapingService.RunStats.zero]

lemma runFold_stats_shift (env : ScrapingService.ScrapeEnv) (skip : Bool)
    (ids : List String) :
    ∀ (st : ScrapingService.Store) (s : ScrapingService.RunStats),
      List.foldl (ScrapingService.processRace env skip) (st, s) ids =
        ((List.foldl (ScrapingService.processRace env skip)
            (st, ScrapingService.RunStats.zero) ids).1,
          s + (List.foldl (ScrapingService.processRace env skip)
            (st, ScrapingService.RunStats.zero) ids).2) := by
  induction ids with
  | nil =>
    intro st s
    simp [runStats_add_zero]
  | cons id rest ih =>
    intro st s
    simp only [List.foldl_cons]
    rw [processRace_stats_shift env skip st s id]
    rcases hp : ScrapingService.processRace env skip
        (st, ScrapingService.RunStats.zero) id with ⟨st1, d⟩
    rw [ih st1 (s + d), ih st1 d, runStats_add_assoc]

lemma digit_ne_sign {c : Char} (h : c.isDigit = true) :
    c ≠ '+' ∧ c ≠ '-' := by
  constructor <;> rintro rfl <;> exact absurd h (by decide)

lemma matchWeightInner_eval {b : List Char} (hb : ∀ x ∈ b, x.isDigit = true)
    (hnb : b ≠ []) (w : Nat) (sgn : ℤ) (r : List Char) :
    DataParser.matchWeightInner w sgn (b ++ (')' :: r)) =
      some ((w : ℤ), sgn * natOfDigits b) := by
  unfold DataParser.matchWeightInner
  rw [spanDigits_append hb (leadingNonDigit_cons ')' r (by decide))]
  simp [hnb]

lemma matchWeightParen_plus {a b r : List Char}
    (ha : ∀ x ∈ a, x.isDigit = true) (hna : a ≠ [])
    (hb : ∀ x ∈ b, x.isDigit = true) (hnb : b ≠ []) :
    DataParser.matchWeightParen (a ++ ('(' :: ('+' :: (b ++ (')' :: r))))) =
      some ((natOfDigits a : ℤ), (natOfDigits b : ℤ)) := by
  unfold DataParser.matchWeightParen
  rw [spanDigits_append ha (leadingNonDigit_cons '(' _ (by decide))]
  simp [hna, matchWeightInner_eval hb hnb]

lemma matchWeightParen_minus {a b r : List Char}
    (ha : ∀ x ∈ a, x.isDigit = true) (hna : a ≠ [])
    (hb : ∀ x ∈ b, x.isDigit = true) (hnb : b ≠ []) :
    DataParser.matchWeightParen (a ++ ('(' :: ('-' :: (b ++ (')' :: r))))) =
      some ((natOfDigits a : ℤ), -(natOfDigits b : ℤ)) := by
  unfold DataParser.matchWeightParen
  rw [spanDigits_append ha (leadingNonDigit_cons '(' _ (by decide))]
  simp [hna, matchWeightInner_eval hb hnb]

lemma matchWeightParen_nosign {a b r : List Char}
    (ha : ∀ x ∈ a, x.isDigit = true) (hna : a ≠ [])
    (hb : ∀ x ∈ b, x.isDigit = true) (hnb : b ≠ []) :
    DataParser.matchWeightParen (a ++ ('(' :: (b ++ (')' :: r)))) =
      some ((natOfDigits a : ℤ), (natOfDigits b : ℤ)) := by
  unfold DataParser.matchWeightParen
  rw [spanDigits_append ha (leadingNonDigit_cons '(' _ (by decide))]
  cases b with
  | nil => exact absurd rfl hnb
  | cons d t =>
    have hd : d.isDigit = true := hb d (by simp)
    have hsg := digit_ne_sign hd
    simp [hna, hsg.1, hsg.2]
    rw [show d :: (t ++ (')' :: r)) = (d :: t) ++ (')' :: r) by simp,
      matchWeightInner_eval hb hnb]
    simp

/-! ## Claim theorems -/

/-- C1: the claim says a validation failure increments `failed` by 1
and leaves `scraped` unchanged.  The code indeed logs, does not
persist, and continues — but the loop at scraping_service.py:93-94
ignores the `False` returned by `scrape_and_save_race`, so the
rejected race is counted in `scraped` and `failed` stays 0: running
over ids `["X", "Y"]` where `"X"` fails validation persists only `"Y"`
yet reports `scraped = 2, failed = 0` (the claim requires
`scraped = 1, failed = 1`). -/
theorem validation_failure_counted_as_scraped :
    ScrapingService.scrape_races_by_date_range Fixtures.envXY
        ["X", "Y"] true [] =
      ([(Fixtures.raceY, [Fixtures.resY])],
        { total := 2, scraped := 2, skipped := 0, failed := 0 }) := by
  decide

/-- C2: the claim says network/timeout errors are retried up to 3
attempts and the final error propagates unchanged.  In the code every
exception raised inside the body of `fetch_page` — including
`httpx.TimeoutException` — is caught and re-raised as `ScrapingError`,
which the decorator predicate
`retry_if_exception_type((httpx.HTTPError, httpx.TimeoutException))`
does not retry: a persistent timeout makes exactly 1 attempt and
surfaces as `ScrapingError`, not as the original timeout (which the
predicate would have retried had it escaped unwrapped). -/
theorem fetch_page_timeout_not_retried :
    fetch_page (fun _ => RawFetch.timeout) =
        (.error .scrapingError, 1) ∧
      isRetryableExc .timeoutException = true ∧
      isRetryableExc .scrapingError = false := by
  decide

/-- C3: the claim says `parse_odds` never raises and returns `None` on
non-numeric input.  On empty and `"-"` it does return `None`, and on a
numeric string with thousands separators it returns the comma-stripped
decimal value — but on a non-numeric string such as `"abc"`,
`Decimal("abc")` raises `decimal.InvalidOperation`, which is not a
`ValueError`/`TypeError` and therefore escapes the `except` clause:
the function raises, contradicting its own docstring. -/
theorem parse_odds_raises_on_non_numeric :
    DataParser.parse_odds "" = .ok none ∧
      DataParser.parse_odds "-" = .ok none ∧
      DataParser.parse_odds "1,234" =
        .ok (some (.finite 1234)) ∧
      DataParser.parse_odds "abc" = .error () := by
  decide

/-- C4: the claim says a second `skip_existing` run over the same range
reports `scraped = 0` and leaves the store unchanged.  The store is
indeed unchanged, but a race that failed validation on the first run
was never persisted, so the second run re-processes it and — through
the same slip as C1 — counts it `scraped`: over `["X", "Y"]` with
`"X"` failing validation, the second run reports `scraped = 1`, not
`0`. -/
theorem second_run_scraped_nonzero :
    (ScrapingService.scrape_races_by_date_range Fixtures.envXY ["X", "Y"]
          true
          (ScrapingService.scrape_races_by_date_range Fixtures.envXY
              ["X", "Y"] true []).1).1 =
        (ScrapingService.scrape_races_by_date_range Fixtures.envXY
            ["X", "Y"] true []).1 ∧
      (ScrapingService.scrape_races_by_date_range Fixtures.envXY ["X", "Y"]
            true
            (ScrapingService.scrape_races_by_date_range Fixtures.envXY
                ["X", "Y"] true []).1).2 =
        { total := 2, scraped := 1, skipped := 1, failed := 0 } := by
  decide

/-- C5: partial-failure isolation.  If processing id `X` raises an
exception at ANY stage — `scrape_and_save_race` re-raises both a
scrape/convert-stage exception and a persistence failure after passed
validation (which rolls back) — and `X` is not skipped by the existence
check, then the run over `pre ++ X :: post` produces exactly the store
of the run over `pre ++ post`, identical `scraped` and `skipped`
counters, and a `failed` counter exactly one higher — every id after
`X` is still attempted and the run does not abort. -/
theorem failed_id_isolated (env : ScrapingService.ScrapeEnv) (skip : Bool)
    (store0 : ScrapingService.Store) (pre post : List String) (X : String)
    (hX : ∀ st : ScrapingService.Store,
      ScrapingService.scrape_and_save_race env st X = Except.error ())
    (hns : skip = true →
      ScrapingService.exists_race
        (List.foldl (ScrapingService.processRace env skip)
          (store0, ScrapingService.RunStats.zero) pre).1 X = false) :
    (ScrapingService.scrape_races_by_date_range env
        (pre ++ X :: post) skip store0).1 =
      (ScrapingService.scrape_races_by_date_range env
        (pre ++ post) skip store0).1 ∧
    (ScrapingService.scrape_races_by_date_range env
        (pre ++ X :: post) skip store0).2.failed =
      (ScrapingService.scrape_races_by_date_range env
        (pre ++ post) skip store0).2.failed + 1 ∧
    (ScrapingService.scrape_races_by_date_range env
        (pre ++ X :: post) skip store0).2.scraped =
      (ScrapingService.scrape_races_by_date_range env
        (pre ++ post) skip store0).2.scraped ∧
    (ScrapingService.scrape_races_by_date_range env
        (pre ++ X :: post) skip store0).2.skipped =
      (ScrapingService.scrape_races_by_date_range env
        (pre ++ post) skip store0).2.skipped ∧
    (ScrapingService.scrape_races_by_date_range env
        (pre ++ X :: post) skip store0).2.total =
      (ScrapingService.scrape_races_by_date_range env
        (pre ++ post) skip store0).2.total + 1 := by
  rcases hP : List.foldl (ScrapingService.processRace env skip)
      (store0, ScrapingService.RunStats.zero) pre with ⟨st1, p⟩
  have hstep : ScrapingService.processRace env skip (st1, p) X =
      (st1, { p with failed := p.failed + 1 }) := by
    simp only [ScrapingService.processRace]
    have hcond : (skip && ScrapingService.exists_race st1 X) = false := by
      cases hskip : skip
      · rfl
      · have h1 := hns hskip
        rw [hP] at h1
        simp only [] at h1
        simp [h1]
    rw [hcond]
    simp [hX st1]
  have hF : List.foldl (ScrapingService.processRace env skip)
      (store0, ScrapingService.RunStats.zero) (pre ++ X :: post) =
      ((List.foldl (ScrapingService.processRace env skip)
          (st1, ScrapingService.RunStats.zero) post).1,
        (p + ⟨0, 0, 0, 1⟩) +
          (List.foldl (ScrapingService.processRace env skip)
            (st1, ScrapingService.RunStats.zero) post).2) := by
    rw [List.foldl_append, hP, List.foldl_cons, hstep,
      runFold_stats_shift env skip post st1]
    have hpf : { p with failed := p.failed + 1 } =
        p + (⟨0, 0, 0, 1⟩ : ScrapingService.RunStats) := by
      cases p
      simp [runStats_add_def]
    rw [hpf]
  have hG : List.foldl (ScrapingService.processRace env skip)
      (store0, ScrapingService.RunStats.zero) (pre ++ post) =
      ((List.foldl (ScrapingService.processRace env skip)
          (st1, ScrapingService.RunStats.zero) post).1,
        p + (List.foldl (ScrapingService.processRace env skip)
          (st1, ScrapingService.RunStats.zero) post).2) := by
    rw [List.foldl_append, hP, runFold_stats_shift env skip post st1]
  unfold ScrapingService.scrape_races_by_date_range
  rw [runFold_stats_shift env skip (pre ++ X :: post) store0,
    runFold_stats_shift env skip (pre ++ post) store0, hF, hG]
  simp [runStats_add_def]
  omega

/-- C6 counterexample: two results both carrying the set post position
0 share a post position, so the claim's "returns false exactly when …
two results share a post position" requires rejection — but
`validate_race_data` filters on Python truthiness (`if r.post_position`),
which drops 0, and accepts the race. -/
theorem validate_accepts_duplicate_zero_position :
    2 ≤ resSharedZero.countP (fun x => x.post_position = some 0) ∧
      RaceDataConverter.validate_race_data
        (some { id := some "202401010101" }) resSharedZero = true := by
  decide

/-- C6 amended: `validate_race_data` returns false exactly when the
race is `None` or its id falsy, `results` is empty, or two results share
a post position that is set AND non-zero; when none of these hold it
returns true — in particular (with only a warning) when the number of
results with finish position 1 is not exactly one. -/
theorem validate_race_data_rejects_iff (race : Option Race)
    (results : List RaceResult) :
    (RaceDataConverter.validate_race_data race results = false ↔
      race = none ∨ (∃ r, race = some r ∧ pyTruthyStr r.id = false) ∨
        results = [] ∨
        ∃ p : ℤ, p ≠ 0 ∧
          2 ≤ results.countP (fun x => x.post_position = some p)) ∧
    (∀ r : Race, race = some r → pyTruthyStr r.id = true → results ≠ [] →
      (¬ ∃ p : ℤ, p ≠ 0 ∧
        2 ≤ results.countP (fun x => x.post_position = some p)) →
      (results.filter (fun x => x.finish_position = some 1)).length ≠ 1 →
      RaceDataConverter.validate_race_data race results = true) := by
  have h := validate_eq_true_iff race results
  constructor
  · rw [show (RaceDataConverter.validate_race_data race results = false) ↔
        ¬ (RaceDataConverter.validate_race_data race results = true) by simp]
    rw [h]
    constructor
    · intro hn
      cases race with
      | none => exact Or.inl rfl
      | some r =>
        refine Or.inr ?_
        by_cases hid : pyTruthyStr r.id = true
        · by_cases hne : results = []
          · exact Or.inr (Or.inl hne)
          · refine Or.inr (Or.inr ?_)
            by_contra hnd
            exact hn ⟨r, rfl, hid, hne, hnd⟩
        · exact Or.inl ⟨r, rfl, by simpa using hid⟩
    · rintro (hnone | ⟨r, hr, hid⟩ | hne | hdup) ⟨r', hr', hid', hne', hnd'⟩
      · rw [hnone] at hr'; exact Option.noConfusion hr'
      · rw [hr] at hr'
        injection hr' with hrr
        subst hrr
        rw [hid] at hid'
        exact Bool.noConfusion hid'
      · exact hne' hne
      · exact hnd' hdup
  · intro r hr hid hne hnd _
    rw [hr] at h ⊢
    exact ((validate_eq_true_iff (some r) results).mpr ⟨r, rfl, hid, hne, hnd⟩)

/-- Witness for C6: a dead-heat race (two finish-position-1 entrants,
distinct post positions, valid id) passes validation. -/
theorem validate_race_data_rejects_iff_witness :
    RaceDataConverter.validate_race_data
      (some { id := some "202401010101" }) resDeadHeat = true :=
  (validate_race_data_rejects_iff
      (some { id := some "202401010101" }) resDeadHeat).2 _ rfl
    (by decide) (by decide)
    (by rw [← dup_truthy_iff]; decide) (by decide)

/-- C7: `parse_time` recognises `M:SS.f`, `M.SS.f` and `M:SS` (for
non-empty digit groups), returning `minutes*60 + seconds (+ fraction/10)`
exactly; `parse_time "1:23.4" = 83.4`, `parse_time "2:01.5" = 121.5`,
and `parse_time "garbage"` is absent.  The embedding is a total
function into `Option ℚ` — the source never raises (regex matching and
`int()` on digit groups only). -/
theorem parse_time_recognizes_formats :
    (∀ a b c : List Char,
      (∀ x ∈ a, x.isDigit = true) → (∀ x ∈ b, x.isDigit = true) →
      (∀ x ∈ c, x.isDigit = true) → a ≠ [] → b ≠ [] → c ≠ [] →
      DataParser.parse_time (String.mk (a ++ (':' :: (b ++ ('.' :: c))))) =
        some ((natOfDigits a : ℚ) * 60 + natOfDigits b +
          (natOfDigits c : ℚ) / 10)) ∧
    (∀ a b c : List Char,
      (∀ x ∈ a, x.isDigit = true) → (∀ x ∈ b, x.isDigit = true) →
      (∀ x ∈ c, x.isDigit = true) → a ≠ [] → b ≠ [] → c ≠ [] →
      DataParser.parse_time (String.mk (a ++ ('.' :: (b ++ ('.' :: c))))) =
        some ((natOfDigits a : ℚ) * 60 + natOfDigits b +
          (natOfDigits c : ℚ) / 10)) ∧
    (∀ a b : List Char,
      (∀ x ∈ a, x.isDigit = true) → (∀ x ∈ b, x.isDigit = true) →
      a ≠ [] → b ≠ [] →
      DataParser.parse_time (String.mk (a ++ (':' :: b))) =
        some ((natOfDigits a : ℚ) * 60 + natOfDigits b)) ∧
    DataParser.parse_time "1:23.4" = some (834 / 10) ∧
    DataParser.parse_time "2:01.5" = some (1215 / 10) ∧
    DataParser.parse_time "garbage" = none := by
  refine ⟨?_, ?_, ?_, ?_, ?_, by decide⟩
  · intro a b c ha hb hc hna hnb hnc
    have hlen : 2 ≤ (a ++ (':' :: (b ++ ('.' :: c)))).length := by
      simp
      omega
    unfold DataParser.parse_time
    rw [if_neg (string_mk_time_ne hlen)]
    have hdata : (String.mk (a ++ (':' :: (b ++ ('.' :: c))))).data =
        a ++ (':' :: (b ++ ('.' :: c))) := rfl
    rw [hdata, strip_time_chars ':' '.' (by decide) (by decide) ha hb hc]
    simp only [matchTimeColonDot_eval ha hb hc hna hnb hnc]
  · intro a b c ha hb hc hna hnb hnc
    have hlen : 2 ≤ (a ++ ('.' :: (b ++ ('.' :: c)))).length := by
      simp
      omega
    unfold DataParser.parse_time
    rw [if_neg (string_mk_time_ne hlen)]
    have hdata : (String.mk (a ++ ('.' :: (b ++ ('.' :: c))))).data =
        a ++ ('.' :: (b ++ ('.' :: c))) := rfl
    rw [hdata, strip_time_chars '.' '.' (by decide) (by decide) ha hb hc]
    simp only [matchTimeColonDot_none_of_dot ha _,
      matchTimeDotDot_eval ha hb hc hna hnb hnc]
  · intro a b ha hb hna hnb
    have hlen : 2 ≤ (a ++ (':' :: b)).length := by
      have hpa : 0 < a.length := List.length_pos.mpr hna
      simp
      omega
    unfold DataParser.parse_time
    rw [if_neg (string_mk_time_ne hlen)]
    have hdata : (String.mk (a ++ (':' :: b))).data = a ++ (':' :: b) := rfl
    rw [hdata, strip_time_chars2 ':' (by decide) ha hb]
    simp only [matchTimeColonDot_none_colon_only ha hb,
      matchTimeDotDot_none_of_colon ha _,
      matchTimeColon_eval ha hb hna hnb]
  · have h : DataParser.matchTimeColonDot (pyStrip ("1:23.4").data) =
        some (1, 23, 4) := by decide
    simp [DataParser.parse_time, h]
    norm_num
  · have h : DataParser.matchTimeColonDot (pyStrip ("2:01.5").data) =
        some (2, 1, 5) := by decide
    simp [DataParser.parse_time, h]
    norm_num

/-- Witness for C7: the general `M:SS.f` clause applied at "12:03.7". -/
theorem parse_time_recognizes_formats_witness :
    DataParser.parse_time "12:03.7" = some (7237 / 10) := by
  have h := parse_time_recognizes_formats.1 ['1', '2'] ['0', '3'] ['7']
    (by decide) (by decide) (by decide) (by decide) (by decide) (by decide)
  have hs : String.mk (['1', '2'] ++ (':' :: (['0', '3'] ++ ('.' :: ['7'])))) =
      "12:03.7" := by decide
  rw [hs] at h
  rw [h]
  have h1 : natOfDigits ['1', '2'] = 12 := by decide
  have h2 : natOfDigits ['0', '3'] = 3 := by decide
  have h3 : natOfDigits ['7'] = 7 := by decide
  rw [h1, h2, h3]
  norm_num

/-- C8 counterexample: `"480abc"` is neither of the claimed shapes
`NNN(+D)`/`NNN(-D)` nor a bare `NNN` (nor empty nor `"-"`), so the claim
requires `(absent, absent)` — but `re.match` is a prefix match and the
code returns `(480, 0)`. -/
theorem parse_weight_shape_counterexample :
    specWeightParenShape ("480abc".data) = false ∧
      specBareNatShape ("480abc".data) = false ∧
      ("480abc" : String) ≠ "" ∧ ("480abc" : String) ≠ "-" ∧
      DataParser.parse_weight "480abc" = (some 480, some 0) := by
  decide

/-- C8 amended: `parse_weight` matches by PREFIX on the stripped input
(`re.match` semantics): a leading `NNN(+D)` / `NNN(-D)` / `NNN(D)` —
the sign is optional in the regex `[+-]?`, its absence read as `+` —
maps to `(NNN, signed D)` regardless of any trailing characters;
otherwise (when the parenthesised pattern does not prefix-match) a
leading digit run `NNN` maps to `(NNN, 0)` regardless of any trailing
characters; and an input whose stripped form starts with no digit
(including `"-"` and empty) maps to `(absent, absent)`.  The four spec
examples hold as stated. -/
theorem parse_weight_prefix_semantics :
    (∀ (s : String) (a b r : List Char),
      ¬ (s = "" ∨ s = "-") →
      (∀ x ∈ a, x.isDigit = true) → a ≠ [] →
      (∀ x ∈ b, x.isDigit = true) → b ≠ [] →
      pyStrip s.data = a ++ ('(' :: ('+' :: (b ++ (')' :: r)))) →
      DataParser.parse_weight s =
        (some (natOfDigits a : ℤ), some (natOfDigits b : ℤ))) ∧
    (∀ (s : String) (a b r : List Char),
      ¬ (s = "" ∨ s = "-") →
      (∀ x ∈ a, x.isDigit = true) → a ≠ [] →
      (∀ x ∈ b, x.isDigit = true) → b ≠ [] →
      pyStrip s.data = a ++ ('(' :: ('-' :: (b ++ (')' :: r)))) →
      DataParser.parse_weight s =
        (some (natOfDigits a : ℤ), some (-(natOfDigits b : ℤ)))) ∧
    (∀ (s : String) (a b r : List Char),
      ¬ (s = "" ∨ s = "-") →
      (∀ x ∈ a, x.isDigit = true) → a ≠ [] →
      (∀ x ∈ b, x.isDigit = true) → b ≠ [] →
      pyStrip s.data = a ++ ('(' :: (b ++ (')' :: r))) →
      DataParser.parse_weight s =
        (some (natOfDigits a : ℤ), some (natOfDigits b : ℤ))) ∧
    (∀ (s : String) (a r : List Char),
      ¬ (s = "" ∨ s = "-") →
      (∀ x ∈ a, x.isDigit = true) → a ≠ [] → leadingNonDigit r →
      pyStrip s.data = a ++ r →
      DataParser.matchWeightParen (pyStrip s.data) = none →
      DataParser.parse_weight s = (some (natOfDigits a : ℤ), some 0)) ∧
    (∀ s : String, ¬ (s = "" ∨ s = "-") →
      (spanDigits (pyStrip s.data)).1 = [] →
      DataParser.parse_weight s = (none, none)) ∧
    DataParser.parse_weight "486(+2)" = (some 486, some 2) ∧
    DataParser.parse_weight "472(-4)" = (some 472, some (-4)) ∧
    DataParser.parse_weight "480" = (some 480, some 0) ∧
    DataParser.parse_weight "-" = (none, none) ∧
    DataParser.parse_weight "480abc" = (some 480, some 0) ∧
    DataParser.parse_weight "486(2)" = (some 486, some 2) := by
  refine ⟨?_, ?_, ?_, ?_, ?_, by decide, by decide, by decide, by decide,
    by decide, by decide⟩
  · intro s a b r hs ha hna hb hnb hsplit
    unfold DataParser.parse_weight
    rw [if_neg hs]
    simp only [hsplit, matchWeightParen_plus ha hna hb hnb]
  · intro s a b r hs ha hna hb hnb hsplit
    unfold DataParser.parse_weight
    rw [if_neg hs]
    simp only [hsplit, matchWeightParen_minus ha hna hb hnb]
  · intro s a b r hs ha hna hb hnb hsplit
    unfold DataParser.parse_weight
    rw [if_neg hs]
    simp only [hsplit, matchWeightParen_nosign ha hna hb hnb]
  · intro s a r hs ha hna hr hsplit hparen
    rw [hsplit] at hparen
    unfold DataParser.parse_weight
    rw [if_neg hs]
    simp only [hsplit, hparen, spanDigits_append ha hr]
    simp [hna]
  · intro s hs hsp
    rcases hspan : spanDigits (pyStrip s.data) with ⟨a, r⟩
    rw [hspan] at hsp
    simp at hsp
    subst hsp
    have hm : DataParser.matchWeightParen (pyStrip s.data) = none := by
      unfold DataParser.matchWeightParen
      rw [hspan]
      simp
    unfold DataParser.parse_weight
    rw [if_neg hs]
    simp only [hm, hspan]
    simp

/-- Witness for C8: the sign-less parenthesised clause applied at
"486(2)x" — the optional sign and the prefix semantics at once. -/
theorem parse_weight_prefix_semantics_witness :
    DataParser.parse_weight "486(2)x" = (some 486, some 2) := by
  have h := parse_weight_prefix_semantics.2.2.1 "486(2)x"
    ['4', '8', '6'] ['2'] ['x'] (by decide) (by decide) (by decide)
    (by decide) (by decide) (by decide)
  rw [h]
  decide

/-- C9: `parse_race_grade` strips and upper-cases its input and then
applies the roman-numeral alias table to members of the known-grade
list: GIII becomes G3, LISTED becomes L, and any token not in the list
(e.g. XYZ) passes through unchanged apart from the case/whitespace
normalisation. -/
theorem parse_race_grade_applies_alias_table :
    DataParser.parse_race_grade "GIII" = some "G3" ∧
      DataParser.parse_race_grade "LISTED" = some "L" ∧
      DataParser.parse_race_grade "XYZ" = some "XYZ" ∧
      (∀ s : String, s ≠ "" →
        DataParser.valid_grades.contains (DataParser.gradeNormalize s) = false →
        DataParser.parse_race_grade s = some (DataParser.gradeNormalize s)) := by
  refine ⟨by decide, by decide, by decide, ?_⟩
  intro s hs hval
  unfold DataParser.parse_race_grade
  rw [if_neg hs]
  simp [hval]
  intro hmem
  exact absurd hval (by simp [hmem])

/-- Witness for C9: the pass-through clause applied at " open ". -/
theorem parse_race_grade_witness :
    DataParser.parse_race_grade " open " = some "OPEN" := by
  have h := parse_race_grade_applies_alias_table.2.2.2 " open "
    (by decide) (by decide)
  rw [h]
  decide

-- C10
/-- C10: the duplicate-post-position check only compares positions
that are set and non-zero: a result list in which two or more results
have an unset (`None`) post position, the set positions being distinct,
passes validation (given a valid race id and a non-empty list) instead
of being rejected as a duplicate. -/
theorem validate_ignores_unset_post_positions (race : Race)
    (results : List RaceResult)
    (hid : pyTruthyStr race.id = true)
    (hne : results ≠ [])
    (_hunset : 2 ≤ results.countP (fun x => x.post_position = none))
    (hdistinct : (results.filterMap RaceResult.post_position).Nodup) :
    RaceDataConverter.validate_race_data (some race) results = true := by
  have hpp : (RaceDataConverter.truthyPostPositions results).Nodup := by
    rw [truthyPostPositions_eq_filter]
    exact hdistinct.filter _
  have hde : (RaceDataConverter.truthyPostPositions results).dedup.length =
      (RaceDataConverter.truthyPostPositions results).length := by
    rw [List.dedup_eq_self.mpr hpp]
  simp [RaceDataConverter.validate_race_data, hid, hne, hde]

/-- Witness for C10: two unset positions plus one set position pass. -/
theorem validate_ignores_unset_witness :
    RaceDataConverter.validate_race_data (some { id := some "202401010101" })
        [{ post_position := none }, { post_position := none },
          { post_position := some 2 }] = true :=
  validate_ignores_unset_post_positions _ _ (by decide) (by decide)
    (by decide) (by decide)


/-- Witness for C5, exercising both failure stages.  In `envXY` id
`"Z"` raises at the scrape stage; in `envPersist` id `"P"` scrapes,
converts and validates but its persist raises.  In both environments
the run over `["Y"] ++ failing :: ["X"]` has the same store as the run
over `["Y", "X"]` and a `failed` counter exactly one higher. -/
theorem failed_id_isolated_witness :
    ((ScrapingService.scrape_races_by_date_range Fixtures.envXY
        (["Y"] ++ "Z" :: ["X"]) true []).1 =
      (ScrapingService.scrape_races_by_date_range Fixtures.envXY
        (["Y"] ++ ["X"]) true []).1 ∧
     (ScrapingService.scrape_races_by_date_range Fixtures.envXY
        (["Y"] ++ "Z" :: ["X"]) true []).2.failed =
      (ScrapingService.scrape_races_by_date_range Fixtures.envXY
        (["Y"] ++ ["X"]) true []).2.failed + 1) ∧
    ((ScrapingService.scrape_races_by_date_range Fixtures.envPersist
        (["Y"] ++ "P" :: ["X"]) true []).1 =
      (ScrapingService.scrape_races_by_date_range Fixtures.envPersist
        (["Y"] ++ ["X"]) true []).1 ∧
     (ScrapingService.scrape_races_by_date_range Fixtures.envPersist
        (["Y"] ++ "P" :: ["X"]) true []).2.failed =
      (ScrapingService.scrape_races_by_date_range Fixtures.envPersist
        (["Y"] ++ ["X"]) true []).2.failed + 1) :=
  ⟨⟨(failed_id_isolated Fixtures.envXY true [] ["Y"] ["X"] "Z"
        (fun _ => rfl) (fun _ => by decide)).1,
    (failed_id_isolated Fixtures.envXY true [] ["Y"] ["X"] "Z"
        (fun _ => rfl) (fun _ => by decide)).2.1⟩,
   ⟨(failed_id_isolated Fixtures.envPersist true [] ["Y"] ["X"] "P"
        (fun _ => rfl) (fun _ => by decide)).1,
    (failed_id_isolated Fixtures.envPersist true [] ["Y"] ["X"] "P"
        (fun _ => rfl) (fun _ => by decide)).2.1⟩⟩
